import Mathlib

/-!
Verification of the AArch64 instruction printer (src/reil/aarch64/printer.cpp)
against its natural-language specification.

The printer writes to a std::ostream. An ostream carries a sticky integer
base flag (std::dec / std::hex) that persists across insertions, and several
printing routines depend on it, so the embedding threads an explicit
formatting state: the text produced so far together with the current base.

The operand/instruction data types and the opcode enumeration are declared in
decoder.h, which is not part of the sources; they are modelled from the
specification (section 3 of spec.md), faithful to how printer.cpp consumes
them.  Machine integers are modelled as Nat; fields that hold a uint64 are
kept below 2 to the 64 by the decoder (a type invariant), and every arithmetic
operation the printer performs on them is reduced mod 2 to the 64 explicitly.
Paths on which the C++ code aborts (failed assert, absl::get on the wrong
variant alternative, switch default calling abort, out-of-range vector access)
are modelled by returning none.
-/

namespace Reil.AArch64

/-- Sticky integer-base flag of a std::ostream (std::dec / std::hex). -/
inductive IntBase where
  | dec
  | hex
deriving DecidableEq

/-- Formatting state of the output stream: accumulated text plus the current
sticky integer base. -/
structure Fmt where
  out : String
  base : IntBase
deriving DecidableEq

/-- Fresh output stream: empty text, decimal base (the ostream default). -/
def fmt0 : Fmt := ⟨"", IntBase.dec⟩

/-- Append literal text to the stream (stream << "..."). -/
def emit (s : String) (f : Fmt) : Fmt := { f with out := f.out ++ s }

/-- Set the sticky integer base (stream << std::dec / std::hex). -/
def setBase (b : IntBase) (f : Fmt) : Fmt := { f with base := b }

/-- Render a natural number in the given base, as ostream does: decimal
digits, or lowercase hexadecimal digits without a prefix. -/
def natStr (b : IntBase) (n : Nat) : String :=
  match b with
  | IntBase.dec => String.mk (Nat.toDigits 10 n)
  | IntBase.hex => String.mk (Nat.toDigits 16 n)

/-- Insert a number into the stream using the current sticky base
(stream << n for an integer n). -/
def emitNat (n : Nat) (f : Fmt) : Fmt := emit (natStr f.base n) f

/-- Insert a uint8_t into the stream.  ostream's operator<< for unsigned
char inserts the byte as a character, not as digits. -/
def emitChar (n : Nat) (f : Fmt) : Fmt := emit (String.mk [Char.ofNat n]) f

/-- Reduction mod 2^64: the value of a uint64_t expression. -/
def u64 (n : Nat) : Nat := n % 2 ^ 64

/-- Bitwise complement of a uint64_t. -/
def u64not (n : Nat) : Nat := 2 ^ 64 - 1 - u64 n

/-- uint64_t subtraction (wraps mod 2^64). -/
def u64sub (a b : Nat) : Nat := u64 (u64 a + (2 ^ 64 - u64 b))

/-- Modelled from the spec: decoder.h's Immediate operand.  value holds the
raw unsigned 64-bit encoding (kept below 2^64 by the decoder); size is the
bit-width of the source field. -/
structure Immediate where
  value : Nat
  size : Nat
deriving DecidableEq

/-- Modelled from the spec: decoder.h's Register operand.  name is the
enumerated register identifier (see the constants below); size selects the
32- or 64-bit view. -/
structure Register where
  name : Nat
  size : Nat
deriving DecidableEq

/-- Modelled from the spec: decoder.h's register-name enumeration, X0..X30
followed by XZR, SP and PC.  PrintRegister prints name - kX0 as the register
number, so kX0 = 0 and the general registers are contiguous. -/
def kX0 : Nat := 0

/-- Register name constant X30 (the link register). -/
def kX30 : Nat := 30

/-- Register name constant XZR (the zero register). -/
def kXzr : Nat := 31

/-- Register name constant SP (the stack pointer). -/
def kSp : Nat := 32

/-- Register name constant PC. -/
def kPc : Nat := 33

/-- Modelled from the spec: names of known system registers in decoder.h,
plus kUnknown for a register identified only by its raw op fields. -/
inductive SysRegName where
  | kUnknown
  | kSPSel
  | kDAIFSet
  | kDAIFClr
  | kUAO
  | kPAN
deriving DecidableEq

/-- Modelled from the spec: decoder.h's SystemRegister operand. -/
structure SystemRegister where
  name : SysRegName
  op0 : Nat
  op1 : Nat
  crn : Nat
  crm : Nat
  op2 : Nat
deriving DecidableEq

/-- Modelled from the spec: decoder.h's shift-type enumeration. -/
inductive ShiftType where
  | kNone
  | kLsl
  | kLsr
  | kAsr
  | kRor
deriving DecidableEq

/-- Modelled from the spec: decoder.h's Shift operand. -/
structure Shift where
  type : ShiftType
  count : Nat
deriving DecidableEq

/-- Modelled from the spec: decoder.h's extend-type enumeration. -/
inductive ExtendType where
  | kNone
  | kUxtb
  | kUxth
  | kUxtw
  | kUxtx
  | kSxtb
  | kSxth
  | kSxtw
  | kSxtx
  | kLsl
deriving DecidableEq

/-- Modelled from the spec: decoder.h's Extend operand. -/
structure Extend where
  type : ExtendType
  count : Nat
deriving DecidableEq

/-- Modelled from the spec: decoder.h's ImmediateOffset addressing operand. -/
structure ImmediateOffset where
  base : Register
  offset : Immediate
  shift : Shift
  writeback : Bool
  post_index : Bool
  size : Nat
deriving DecidableEq

/-- Modelled from the spec: decoder.h's RegisterOffset addressing operand. -/
structure RegisterOffset where
  base : Register
  offset : Register
  extend : Extend
  writeback : Bool
  post_index : Bool
  size : Nat
deriving DecidableEq

/-- Modelled from the spec: decoder.h's Operand variant.  The unknown
constructor stands for a variant whose index() falls outside the cases
handled by the printer's switch (the default branch of
operator<<(std::ostream&, Operand)). -/
inductive Operand where
  | immediate (i : Immediate)
  | register (r : Register)
  | systemRegister (s : SystemRegister)
  | shift (s : Shift)
  | extend (e : Extend)
  | immediateOffset (io : ImmediateOffset)
  | registerOffset (ro : RegisterOffset)
  | unknown (index : Nat)
deriving DecidableEq

/-- Modelled from the spec: decoder.h's Instruction.  opcode is a value of
the opcode enumeration (see the constants below); cc is the 4-bit condition
code. -/
structure Instruction where
  opcode : Nat
  operands : List Operand
  cc : Nat
  set_flags : Bool
deriving DecidableEq

/-- Modelled from the spec: decoder.h's opcode enumeration.  The spec
requires a closed total ordering in which each encoding family occupies a
contiguous range; the family boundaries and their order are fixed by the
dispatch chain of operator<<(std::ostream&, Instruction) in printer.cpp, and
the last member of each family is the opcode the dispatch compares against.
kAdr is the first opcode. -/
def kAdr : Nat := 0

/-- Opcode kAdrp: last opcode of the pc-relative-addressing family. -/
def kAdrp : Nat := 1

/-- Opcode kAddImmediate. -/
def kAddImmediate : Nat := 2

/-- Opcode kSubImmediate: last opcode of the add/subtract-immediate family. -/
def kSubImmediate : Nat := 3

/-- Opcode kAndImmediate. -/
def kAndImmediate : Nat := 4

/-- Opcode kOrrImmediate. -/
def kOrrImmediate : Nat := 5

/-- Opcode kEorImmediate: last opcode of the logical-immediate family. -/
def kEorImmediate : Nat := 6

/-- Opcode kMovn. -/
def kMovn : Nat := 7

/-- Opcode kMovk. -/
def kMovk : Nat := 8

/-- Opcode kMovz: last opcode of the move-wide-immediate family. -/
def kMovz : Nat := 9

/-- Opcode kBfm. -/
def kBfm : Nat := 10

/-- Opcode kSbfm. -/
def kSbfm : Nat := 11

/-- Opcode kUbfm: last opcode of the bitfield family. -/
def kUbfm : Nat := 12

/-- Opcode kExtr: the extract family. -/
def kExtr : Nat := 13

/-- Opcode kBCond: the conditional-branch family. -/
def kBCond : Nat := 14

/-- Opcode kHvc. -/
def kHvc : Nat := 15

/-- Opcode kSmc. -/
def kSmc : Nat := 16

/-- Opcode kBrk. -/
def kBrk : Nat := 17

/-- Opcode kHlt. -/
def kHlt : Nat := 18

/-- Opcode kDcps1. -/
def kDcps1 : Nat := 19

/-- Opcode kDcps2. -/
def kDcps2 : Nat := 20

/-- Opcode kDcps3. -/
def kDcps3 : Nat := 21

/-- Opcode kSvc: last opcode of the exception-generation family. -/
def kSvc : Nat := 22

/-- Opcode kNop. -/
def kNop : Nat := 23

/-- Opcode kWfe. -/
def kWfe : Nat := 24

/-- Opcode kWfi. -/
def kWfi : Nat := 25

/-- Opcode kSev. -/
def kSev : Nat := 26

/-- Opcode kSevl. -/
def kSevl : Nat := 27

/-- Opcode kXpaclri. -/
def kXpaclri : Nat := 28

/-- Opcode kPacia1716. -/
def kPacia1716 : Nat := 29

/-- Opcode kPacib1716. -/
def kPacib1716 : Nat := 30

/-- Opcode kAutia1716. -/
def kAutia1716 : Nat := 31

/-- Opcode kAutib1716. -/
def kAutib1716 : Nat := 32

/-- Opcode kEsb. -/
def kEsb : Nat := 33

/-- Opcode kPsbCsync. -/
def kPsbCsync : Nat := 34

/-- Opcode kPaciaz. -/
def kPaciaz : Nat := 35

/-- Opcode kPaciasp. -/
def kPaciasp : Nat := 36

/-- Opcode kPacibz. -/
def kPacibz : Nat := 37

/-- Opcode kPacibsp. -/
def kPacibsp : Nat := 38

/-- Opcode kAutiaz. -/
def kAutiaz : Nat := 39

/-- Opcode kAutiasp. -/
def kAutiasp : Nat := 40

/-- Opcode kAutibz. -/
def kAutibz : Nat := 41

/-- Opcode kAutibsp. -/
def kAutibsp : Nat := 42

/-- Opcode kHint. -/
def kHint : Nat := 43

/-- Opcode kClrex. -/
def kClrex : Nat := 44

/-- Opcode kDsb. -/
def kDsb : Nat := 45

/-- Opcode kDmb. -/
def kDmb : Nat := 46

/-- Opcode kIsb. -/
def kIsb : Nat := 47

/-- Opcode kSys. -/
def kSys : Nat := 48

/-- Opcode kMsr. -/
def kMsr : Nat := 49

/-- Opcode kSysl. -/
def kSysl : Nat := 50

/-- Opcode kMrs. -/
def kMrs : Nat := 51

/-- Opcode kYield: last opcode of the system family. -/
def kYield : Nat := 52

/-- Opcode kBr. -/
def kBr : Nat := 53

/-- Opcode kBraaz. -/
def kBraaz : Nat := 54

/-- Opcode kBrabz. -/
def kBrabz : Nat := 55

/-- Opcode kBlr. -/
def kBlr : Nat := 56

/-- Opcode kBlraaz. -/
def kBlraaz : Nat := 57

/-- Opcode kBlrabz. -/
def kBlrabz : Nat := 58

/-- Opcode kRet. -/
def kRet : Nat := 59

/-- Opcode kRetaa. -/
def kRetaa : Nat := 60

/-- Opcode kRetab. -/
def kRetab : Nat := 61

/-- Opcode kEret. -/
def kEret : Nat := 62

/-- Opcode kEretaa. -/
def kEretaa : Nat := 63

/-- Opcode kEretab. -/
def kEretab : Nat := 64

/-- Opcode kDrps. -/
def kDrps : Nat := 65

/-- Opcode kBraa. -/
def kBraa : Nat := 66

/-- Opcode kBrab. -/
def kBrab : Nat := 67

/-- Opcode kBlraa. -/
def kBlraa : Nat := 68

/-- Opcode kBlrab. -/
def kBlrab : Nat := 69

/-- Opcode kRetabz: last opcode of the branch-register family. -/
def kRetabz : Nat := 70

/-- Opcode kB. -/
def kB : Nat := 71

/-- Opcode kBl: last opcode of the branch-immediate family. -/
def kBl : Nat := 72

/-- Opcode kCbnz. -/
def kCbnz : Nat := 73

/-- Opcode kCbz: last opcode of the compare-and-branch family. -/
def kCbz : Nat := 74

/-- Opcode kTbnz. -/
def kTbnz : Nat := 75

/-- Opcode kTbz: last opcode of the test-and-branch family. -/
def kTbz : Nat := 76

/-- Opcode kLdar. -/
def kLdar : Nat := 77

/-- Opcode kLdaxp. -/
def kLdaxp : Nat := 78

/-- Opcode kLdaxr. -/
def kLdaxr : Nat := 79

/-- Opcode kLdlar. -/
def kLdlar : Nat := 80

/-- Opcode kLdxp. -/
def kLdxp : Nat := 81

/-- Opcode kLdxr: last of the exclusive loads. -/
def kLdxr : Nat := 82

/-- Opcode kStlr. -/
def kStlr : Nat := 83

/-- Opcode kStllr. -/
def kStllr : Nat := 84

/-- Opcode kStlxp. -/
def kStlxp : Nat := 85

/-- Opcode kStlxr. -/
def kStlxr : Nat := 86

/-- Opcode kStxp. -/
def kStxp : Nat := 87

/-- Opcode kStxr: last opcode of the load/store-exclusive family. -/
def kStxr : Nat := 88

/-- Opcode kLdrLiteral. -/
def kLdrLiteral : Nat := 89

/-- Opcode kLdrsLiteral. -/
def kLdrsLiteral : Nat := 90

/-- Opcode kPrfmLiteral: last opcode of the load-literal family. -/
def kPrfmLiteral : Nat := 91

/-- Opcode kLdnp. -/
def kLdnp : Nat := 92

/-- Opcode kLdp. -/
def kLdp : Nat := 93

/-- Opcode kLdpsw. -/
def kLdpsw : Nat := 94

/-- Opcode kStnp. -/
def kStnp : Nat := 95

/-- Opcode kStp: last opcode of the load/store-pair family. -/
def kStp : Nat := 96

/-- Opcode kPrfm. -/
def kPrfm : Nat := 97

/-- Opcode kLdr. -/
def kLdr : Nat := 98

/-- Opcode kLdtr. -/
def kLdtr : Nat := 99

/-- Opcode kLdtrs. -/
def kLdtrs : Nat := 100

/-- Opcode kLdur. -/
def kLdur : Nat := 101

/-- Opcode kLdurs. -/
def kLdurs : Nat := 102

/-- Opcode kLdrs. -/
def kLdrs : Nat := 103

/-- Opcode kStr. -/
def kStr : Nat := 104

/-- Opcode kSttr. -/
def kSttr : Nat := 105

/-- Opcode kStur: last opcode of the load/store family. -/
def kStur : Nat := 106

/-- Opcode kAsr. -/
def kAsr : Nat := 107

/-- Opcode kLsl. -/
def kLsl : Nat := 108

/-- Opcode kLsr. -/
def kLsr : Nat := 109

/-- Opcode kRor. -/
def kRor : Nat := 110

/-- Opcode kSdiv. -/
def kSdiv : Nat := 111

/-- Opcode kPacga. -/
def kPacga : Nat := 112

/-- Opcode kCrc32b. -/
def kCrc32b : Nat := 113

/-- Opcode kCrc32h. -/
def kCrc32h : Nat := 114

/-- Opcode kCrc32w. -/
def kCrc32w : Nat := 115

/-- Opcode kCrc32x. -/
def kCrc32x : Nat := 116

/-- Opcode kCrc32cb. -/
def kCrc32cb : Nat := 117

/-- Opcode kCrc32ch. -/
def kCrc32ch : Nat := 118

/-- Opcode kCrc32cw. -/
def kCrc32cw : Nat := 119

/-- Opcode kCrc32cx. -/
def kCrc32cx : Nat := 120

/-- Opcode kUdiv: last opcode of the two-source family. -/
def kUdiv : Nat := 121

/-- Opcode kRbit. -/
def kRbit : Nat := 122

/-- Opcode kRev16. -/
def kRev16 : Nat := 123

/-- Opcode kRev32. -/
def kRev32 : Nat := 124

/-- Opcode kRev. -/
def kRev : Nat := 125

/-- Opcode kClz. -/
def kClz : Nat := 126

/-- Opcode kCls. -/
def kCls : Nat := 127

/-- Opcode kPacia. -/
def kPacia : Nat := 128

/-- Opcode kPacib. -/
def kPacib : Nat := 129

/-- Opcode kPacda. -/
def kPacda : Nat := 130

/-- Opcode kPacdb. -/
def kPacdb : Nat := 131

/-- Opcode kAutia. -/
def kAutia : Nat := 132

/-- Opcode kAutib. -/
def kAutib : Nat := 133

/-- Opcode kAutda. -/
def kAutda : Nat := 134

/-- Opcode kAutdb. -/
def kAutdb : Nat := 135

/-- Opcode kXpacd. -/
def kXpacd : Nat := 136

/-- Opcode kXpaci: last opcode of the one-source family. -/
def kXpaci : Nat := 137

/-- Opcode kAndShiftedRegister. -/
def kAndShiftedRegister : Nat := 138

/-- Opcode kBicShiftedRegister. -/
def kBicShiftedRegister : Nat := 139

/-- Opcode kOrrShiftedRegister. -/
def kOrrShiftedRegister : Nat := 140

/-- Opcode kOrnShiftedRegister. -/
def kOrnShiftedRegister : Nat := 141

/-- Opcode kEorShiftedRegister. -/
def kEorShiftedRegister : Nat := 142

/-- Opcode kEonShiftedRegister: last opcode of the logical-shifted-register
family. -/
def kEonShiftedRegister : Nat := 143

/-- Opcode kAddShiftedRegister. -/
def kAddShiftedRegister : Nat := 144

/-- Opcode kSubShiftedRegister: last opcode of the add/subtract-shifted
family. -/
def kSubShiftedRegister : Nat := 145

/-- Opcode kAddExtendedRegister. -/
def kAddExtendedRegister : Nat := 146

/-- Opcode kSubExtendedRegister: last opcode of the add/subtract-extended
family. -/
def kSubExtendedRegister : Nat := 147

/-- Opcode kAdc. -/
def kAdc : Nat := 148

/-- Opcode kSbc: last opcode of the add/subtract-with-carry family. -/
def kSbc : Nat := 149

/-- Opcode kCcmn. -/
def kCcmn : Nat := 150

/-- Opcode kCcmp: last opcode of the conditional-compare family. -/
def kCcmp : Nat := 151

/-- Opcode kCsel. -/
def kCsel : Nat := 152

/-- Opcode kCsinc. -/
def kCsinc : Nat := 153

/-- Opcode kCsinv. -/
def kCsinv : Nat := 154

/-- Opcode kCsneg: last opcode of the conditional-select family. -/
def kCsneg : Nat := 155

/-- Opcode kMadd. -/
def kMadd : Nat := 156

/-- Opcode kMsub. -/
def kMsub : Nat := 157

/-- Opcode kSmaddl. -/
def kSmaddl : Nat := 158

/-- Opcode kSmsubl. -/
def kSmsubl : Nat := 159

/-- Opcode kSmulh. -/
def kSmulh : Nat := 160

/-- Opcode kUmaddl. -/
def kUmaddl : Nat := 161

/-- Opcode kUmulh. -/
def kUmulh : Nat := 162

/-- Opcode kUmsubl: last opcode of the three-source family and the greatest
opcode known to the printer's dispatch. -/
def kUmsubl : Nat := 163

/-- Embeds PrintImmediate from printer.cpp. -/
def PrintImmediate (opnd : Immediate) (f : Fmt) : Fmt :=
  f |> emit "#0x" |> setBase IntBase.hex |> emitNat opnd.value

/-- Embeds PrintSignedImmediate from printer.cpp.  The C++ tests
opnd.value and 1 shifted left by (opnd.size - 1); this is the bit-(size-1)
test, the defined-behaviour reading for field-sized values.  The negative
magnitude is the uint64 computation (~opnd.value) + 1 over the full 64-bit
value (no masking to opnd.size). -/
def PrintSignedImmediate (opnd : Immediate) (f : Fmt) : Fmt :=
  if Nat.testBit opnd.value (opnd.size - 1) then
    f |> emit "#-0x" |> setBase IntBase.hex |> emitNat (u64 (u64not opnd.value + 1))
  else
    f |> emit "#0x" |> setBase IntBase.hex |> emitNat opnd.value

/-- Embeds PrintRegister from printer.cpp.  The register number is inserted
with no base manipulator, so it renders in the stream's current base. -/
def PrintRegister (opnd : Register) (f : Fmt) : Fmt :=
  if kX0 ≤ opnd.name ∧ opnd.name ≤ kXzr then
    let f := emit (if opnd.size ≤ 32 then "w" else "x") f
    if opnd.name = kXzr then emit "zr" f else emitNat (opnd.name - kX0) f
  else if opnd.name = kSp then
    emit (if opnd.size ≤ 32 then "wsp" else "sp") f
  else if opnd.name = kPc then
    emit "pc" f
  else
    emit "<unsupported_reg>" f

/-- Embeds PrintSystemRegister from printer.cpp.  A name outside the listed
cases prints nothing. -/
def PrintSystemRegister (opnd : SystemRegister) (f : Fmt) : Fmt :=
  match opnd.name with
  | SysRegName.kUnknown =>
    f |> emit "S" |> setBase IntBase.dec |> emitNat opnd.op0
      |> emit "_" |> setBase IntBase.dec |> emitNat opnd.op1
      |> emit "_C" |> setBase IntBase.dec |> emitNat opnd.crn
      |> emit "_C" |> setBase IntBase.dec |> emitNat opnd.crm
      |> emit "_" |> setBase IntBase.dec |> emitNat opnd.op2
  | SysRegName.kSPSel => emit "SPSel" f
  | SysRegName.kDAIFSet => emit "DAIFSet" f
  | SysRegName.kDAIFClr => emit "DAIFClr" f
  | SysRegName.kUAO => emit "UAO" f
  | SysRegName.kPAN => emit "PAN" f

/-- Embeds PrintShift from printer.cpp.  The switch default (abort) is
unreachable: the enclosing condition excludes kNone and the four remaining
shift types each have a case. -/
def PrintShift (opnd : Shift) (f : Fmt) : Fmt :=
  if opnd.type ≠ ShiftType.kNone then
    let f :=
      match opnd.type with
      | ShiftType.kLsl => emit ", lsl " f
      | ShiftType.kLsr => emit ", lsr " f
      | ShiftType.kAsr => emit ", asr " f
      | ShiftType.kRor => emit ", ror " f
      | ShiftType.kNone => f
    f |> emit "#0x" |> setBase IntBase.hex |> emitNat opnd.count
  else f

/-- Embeds PrintExtend from printer.cpp.  The switch default (abort) is
unreachable for the same reason as in PrintShift. -/
def PrintExtend (opnd : Extend) (f : Fmt) : Fmt :=
  if opnd.type ≠ ExtendType.kNone then
    let f :=
      match opnd.type with
      | ExtendType.kUxtb => emit ", uxtb" f
      | ExtendType.kUxth => emit ", uxth" f
      | ExtendType.kUxtw => emit ", uxtw" f
      | ExtendType.kUxtx => emit ", uxtx" f
      | ExtendType.kLsl => if opnd.count ≠ 0 then emit ", lsl" f else f
      | ExtendType.kSxtb => emit ", sxtb" f
      | ExtendType.kSxth => emit ", sxth" f
      | ExtendType.kSxtw => emit ", sxtw" f
      | ExtendType.kSxtx => emit ", sxtx" f
      | ExtendType.kNone => f
    if opnd.count ≠ 0 then
      f |> emit ", #" |> setBase IntBase.dec |> emitNat opnd.count
    else f
  else f

/-- Embeds PrintImmediateOffset from printer.cpp. -/
def PrintImmediateOffset (opnd : ImmediateOffset) (f : Fmt) : Fmt :=
  let f := f |> emit "[" |> PrintRegister opnd.base
  let f := if opnd.writeback ∧ opnd.post_index then emit "]" f else f
  let f :=
    if opnd.offset.value ≠ 0 then
      f |> emit ", " |> PrintSignedImmediate opnd.offset |> PrintShift opnd.shift
    else f
  if ¬opnd.writeback ∨ ¬opnd.post_index then
    let f := emit "]" f
    if opnd.writeback then emit "!" f else f
  else f

/-- Embeds PrintRegisterOffset from printer.cpp. -/
def PrintRegisterOffset (opnd : RegisterOffset) (f : Fmt) : Fmt :=
  let f := f |> emit "[" |> PrintRegister opnd.base
  let f := if opnd.writeback ∧ opnd.post_index then emit "]" f else f
  let f := f |> emit ", " |> PrintRegister opnd.offset |> PrintExtend opnd.extend
  if ¬opnd.writeback ∨ ¬opnd.post_index then
    let f := emit "]" f
    if opnd.writeback then emit "!" f else f
  else f

/-- Embeds operator<<(std::ostream&, Operand) from printer.cpp: dispatch on
the variant index, with the default branch printing the unsupported-operand
marker. -/
def printOperand (operand : Operand) (f : Fmt) : Fmt :=
  match operand with
  | Operand.immediate i => PrintImmediate i f
  | Operand.register r => PrintRegister r f
  | Operand.systemRegister s => PrintSystemRegister s f
  | Operand.shift s => PrintShift s f
  | Operand.extend e => PrintExtend e f
  | Operand.immediateOffset io => PrintImmediateOffset io f
  | Operand.registerOffset ro => PrintRegisterOffset ro f
  | Operand.unknown _ => emit "<unsupported_opnd>" f

/-- True for a Shift-variant operand (absl::holds_alternative of Shift). -/
def isShiftOperand : Operand → Bool
  | Operand.shift _ => true
  | _ => false

/-- Embeds the loop body of PrintOperands: the Bool is true once at least
one operand has been printed (i different from 0 in the C++ loop). -/
def printOperandsAux : List Operand → Bool → Fmt → Fmt
  | [], _, f => f
  | opnd :: rest, started, f =>
    let f := if started ∧ ¬isShiftOperand opnd then emit ", " f else f
    printOperandsAux rest true (printOperand opnd f)

/-- Embeds PrintOperands from printer.cpp. -/
def PrintOperands (opnds : List Operand) (f : Fmt) : Fmt :=
  printOperandsAux opnds false f

/-- The condition-code name table from PrintConditionCode. -/
def condition_codes : List String :=
  ["eq", "ne", "cs", "cc", "mi", "pl", "vs", "vc",
   "hi", "ls", "ge", "lt", "gt", "le", "al", "al"]

/-- Embeds PrintConditionCode from printer.cpp (indexing past the 16-entry
table is undefined in the C++; modelled as printing nothing). -/
def PrintConditionCode (cc : Nat) (f : Fmt) : Fmt :=
  emit (condition_codes.getD cc "") f

/-- Embeds PrintPrefetchOp from printer.cpp.  prfop is a uint8_t; the
fallback inserts it as a raw character (ostream's unsigned-char overload).
The switch defaults (abort) are modelled as none. -/
def PrintPrefetchOp (prfop : Nat) (f : Fmt) : Option Fmt :=
  if prfop &&& 0b11000 = 0b11000 ∨ prfop &&& 0b00110 = 0b00110 then
    some (f |> emit "#" |> setBase IntBase.dec |> emitChar prfop)
  else
    let f1 : Option Fmt :=
      if prfop &&& 0b11000 = 0b00000 then some (emit "PLD" f)
      else if prfop &&& 0b11000 = 0b01000 then some (emit "PLI" f)
      else if prfop &&& 0b11000 = 0b10000 then some (emit "PST" f)
      else none
    match f1 with
    | none => none
    | some f =>
      let f2 : Option Fmt :=
        if prfop &&& 0b00110 = 0b00000 then some (emit "L1" f)
        else if prfop &&& 0b00110 = 0b00010 then some (emit "L2" f)
        else if prfop &&& 0b00110 = 0b00100 then some (emit "L3" f)
        else none
      match f2 with
      | none => none
      | some f =>
        if prfop &&& 0b1 = 0 then some (emit "KEEP" f) else some (emit "STRM" f)

/-- Embeds PrintBarrierType from printer.cpp.  option is a uint8_t; the
fallback inserts it as a raw character (ostream's unsigned-char overload).
The second switch's default (abort) is modelled as none; the first switch
has no default, so an unmatched selector prints nothing. -/
def PrintBarrierType (option : Nat) (f : Fmt) : Option Fmt :=
  if (option &&& 0b10) >>> 1 = option &&& 0b01 then
    some (f |> emit "#" |> setBase IntBase.dec |> emitChar option)
  else
    let f :=
      if option >>> 2 = 0b00 then emit "os" f
      else if option >>> 2 = 0b01 then emit "nsh" f
      else if option >>> 2 = 0b10 then emit "ish" f
      else if option >>> 2 = 0b11 then
        (if option = 0b1111 then emit "sy" f else f)
      else f
    if option &&& 0b11 = 0b01 then some (emit "ld" f)
    else if option &&& 0b11 = 0b10 then some (emit "st" f)
    else none

/-- Embeds PrintPcRelativeAddressing from printer.cpp.  The asserts (operand
arity and, for adrp, the shift being lsl #12) are modelled as none. -/
def PrintPcRelativeAddressing (insn : Instruction) (f : Fmt) : Option Fmt :=
  match insn.operands with
  | [Operand.register rd, Operand.immediate imm, Operand.shift shift] =>
    if insn.opcode = kAdr then
      some (f |> emit "adr " |> PrintRegister rd |> emit ", " |> PrintImmediate imm)
    else
      if shift.type = ShiftType.kLsl ∧ shift.count = 12 then
        let imm := { imm with value := u64 (imm.value <<< 12) }
        some (f |> emit "adrp " |> PrintRegister rd |> emit ", " |> PrintImmediate imm)
      else none
  | _ => none

/-- Embeds PrintAddSubtractImmediate from printer.cpp. -/
def PrintAddSubtractImmediate (insn : Instruction) (f : Fmt) : Option Fmt :=
  match insn.operands with
  | [Operand.register rd, Operand.register rn, Operand.immediate imm,
     Operand.shift shift] =>
    if (imm.value = 0 ∧ insn.set_flags = false ∧ rd.name = kSp) ∨
       (imm.value = 0 ∧ rn.name = kSp) then
      some (f |> emit "mov " |> PrintRegister rd |> emit ", " |> PrintRegister rn)
    else if rd.name = kXzr then
      let f := if insn.opcode = kSubImmediate then emit "cmp " f else emit "cmn " f
      some (f |> PrintRegister rn |> emit ", " |> PrintImmediate imm
              |> PrintShift shift)
    else
      let f := if insn.opcode = kSubImmediate then emit "sub" f else emit "add" f
      let f := if insn.set_flags then emit "s " f else emit " " f
      some (f |> PrintRegister rd |> emit ", " |> PrintRegister rn |> emit ", "
              |> PrintImmediate imm |> PrintShift shift)
  | _ => none

/-- Embeds PrintLogicalImmediate from printer.cpp. -/
def PrintLogicalImmediate (insn : Instruction) (f : Fmt) : Option Fmt :=
  match insn.operands with
  | [Operand.register rd, Operand.register rn, Operand.immediate imm] =>
    let mn : Option Fmt :=
      if insn.opcode = kAndImmediate then
        some (if insn.set_flags = false then emit "and " f
              else if rd.name = kXzr then emit "tst " f
              else emit "ands " f)
      else if insn.opcode = kOrrImmediate then
        some (if rn.name = kXzr then emit "mov " f else emit "orr " f)
      else if insn.opcode = kEorImmediate then
        some (emit "eor " f)
      else none
    match mn with
    | none => none
    | some f =>
      let f := if insn.opcode ≠ kAndImmediate ∨ rd.name ≠ kXzr then
                 f |> PrintRegister rd |> emit ", "
               else f
      let f := if insn.opcode ≠ kOrrImmediate ∨ rn.name ≠ kXzr then
                 f |> PrintRegister rn |> emit ", "
               else f
      some (PrintImmediate imm f)
  | _ => none

/-- Embeds PrintMoveWideImmediate from printer.cpp.  The first operand is
printed through operator<<(Operand). -/
def PrintMoveWideImmediate (insn : Instruction) (f : Fmt) : Option Fmt :=
  match insn.operands with
  | [op0, Operand.immediate imm, Operand.shift shift] =>
    let step : Option (Fmt × Immediate) :=
      if insn.opcode = kMovn then
        some (emit "mov " f,
              { imm with value := u64not (u64 (imm.value <<< shift.count)) })
      else if insn.opcode = kMovz then
        some (emit "mov " f, { imm with value := u64 (imm.value <<< shift.count) })
      else if insn.opcode = kMovk then
        some (emit "movk " f, imm)
      else none
    match step with
    | none => none
    | some (f, imm) =>
      let imm := if imm.size = 32 then { imm with value := imm.value &&& 0xffffffff }
                 else imm
      let f := f |> printOperand op0 |> emit ", " |> PrintImmediate imm
      some (if insn.opcode = kMovk then PrintShift shift f else f)
  | _ => none

/-- Embeds PrintBitfield from printer.cpp.  All immediate arithmetic is
uint64 arithmetic; the numbers after the mnemonic are inserted with no base
manipulator, so they render in the stream's current base.  An opcode other
than kBfm/kSbfm/kUbfm prints nothing (the if-chain has no trailing else). -/
def PrintBitfield (insn : Instruction) (f : Fmt) : Option Fmt :=
  match insn.operands with
  | [Operand.register rd, Operand.register rn, Operand.immediate immr,
     Operand.immediate imms] =>
    if insn.opcode = kBfm then
      let f :=
        if rn.name = kXzr ∧ imms.value < immr.value then
          f |> emit "bfc " |> PrintRegister rd
        else if imms.value < immr.value then
          f |> emit "bfi " |> PrintRegister rd |> emit ", " |> PrintRegister rn
        else
          f |> emit "bfxil " |> PrintRegister rd |> emit ", " |> PrintRegister rn
      some (f |> emit ", #" |> emitNat (u64sub immr.size immr.value)
              |> emit ", #" |> emitNat (u64 (imms.value + 1)))
    else if insn.opcode = kSbfm then
      if (imms.size = 32 ∧ imms.value = 0b011111) ∨
         (imms.size = 64 ∧ imms.value = 0b111111) then
        some (f |> emit "asr " |> PrintRegister rd |> emit ", " |> PrintRegister rn
                |> emit ", #" |> emitNat immr.value)
      else if imms.value < immr.value then
        some (f |> emit "sbfiz " |> PrintRegister rd |> emit ", " |> PrintRegister rn
                |> emit ", #" |> emitNat (u64sub immr.size immr.value)
                |> emit ", #" |> emitNat (u64 (imms.value + 1)))
      else if immr.value = 0 ∧ imms.value = 0b000111 then
        some (f |> emit "sxtb " |> PrintRegister rd |> emit ", " |> PrintRegister rn)
      else if immr.value = 0 ∧ imms.value = 0b001111 then
        some (f |> emit "sxth " |> PrintRegister rd |> emit ", " |> PrintRegister rn)
      else if immr.value = 0 ∧ imms.value = 0b011111 then
        some (f |> emit "sxtw " |> PrintRegister rd |> emit ", " |> PrintRegister rn)
      else
        some (f |> emit "sbfx " |> PrintRegister rd |> emit ", " |> PrintRegister rn
                |> emit ", #" |> emitNat immr.value
                |> emit ", #" |> emitNat (u64 (u64sub imms.value immr.value + 1)))
    else if insn.opcode = kUbfm then
      if u64 (imms.value + 1) = immr.value ∧
         (imms.value ≠ 0b011111 ∧ imms.value ≠ 0b111111) then
        some (f |> emit "lsl " |> PrintRegister rd |> emit ", " |> PrintRegister rn
                |> emit ", #" |> emitNat (u64sub immr.size immr.value))
      else if imms.value = 0b011111 ∨ imms.value = 0b111111 then
        some (f |> emit "lsr " |> PrintRegister rd |> emit ", " |> PrintRegister rn
                |> emit ", #" |> emitNat immr.value)
      else if imms.value < immr.value then
        some (f |> emit "ubfiz " |> PrintRegister rd |> emit ", " |> PrintRegister rn
                |> emit ", #" |> emitNat (u64sub immr.size immr.value)
                |> emit ", #" |> emitNat (u64 (imms.value + 1)))
      else if immr.value = 0 ∧ imms.value = 0b000111 then
        some (f |> emit "uxtb " |> PrintRegister rd |> emit ", " |> PrintRegister rn)
      else if immr.value = 0 ∧ imms.value = 0b001111 then
        some (f |> emit "uxth " |> PrintRegister rd |> emit ", " |> PrintRegister rn)
      else if immr.value = 0 ∧ imms.value = 0b011111 then
        some (f |> emit "uxtw " |> PrintRegister rd |> emit ", " |> PrintRegister rn)
      else
        some (f |> emit "ubfx " |> PrintRegister rd |> emit ", " |> PrintRegister rn
                |> emit ", #" |> emitNat immr.value
                |> emit ", #" |> emitNat (u64 (u64sub imms.value immr.value + 1)))
    else some f
  | _ => none

/-- Embeds PrintExtract from printer.cpp. -/
def PrintExtract (insn : Instruction) (f : Fmt) : Option Fmt :=
  match insn.operands with
  | [Operand.register rd, Operand.register rn, Operand.register rm,
     Operand.immediate imm] =>
    let f :=
      if rn.name = rm.name then
        f |> emit "ror " |> PrintRegister rd |> emit ", " |> PrintRegister rn
      else
        f |> emit "extr " |> PrintRegister rd |> emit ", " |> PrintRegister rn
          |> emit ", " |> PrintRegister rm
    some (f |> emit ", #" |> setBase IntBase.dec |> emitNat imm.value)
  | _ => none

/-- Embeds PrintConditionalBranch from printer.cpp. -/
def PrintConditionalBranch (insn : Instruction) (f : Fmt) : Option Fmt :=
  match insn.operands with
  | [Operand.immediate offset] =>
    some (f |> emit "b." |> PrintConditionCode insn.cc |> emit " "
            |> PrintSignedImmediate offset)
  | _ => none

/-- Embeds PrintExceptionGeneration from printer.cpp. -/
def PrintExceptionGeneration (insn : Instruction) (f : Fmt) : Option Fmt :=
  match insn.operands with
  | [Operand.immediate imm] =>
    if insn.opcode = kSvc then
      some (f |> emit "svc #" |> setBase IntBase.dec |> emitNat imm.value)
    else if insn.opcode = kHvc then
      some (f |> emit "hvc #" |> setBase IntBase.dec |> emitNat imm.value)
    else if insn.opcode = kSmc then
      some (f |> emit "smc #" |> setBase IntBase.dec |> emitNat imm.value)
    else if insn.opcode = kBrk then
      some (f |> emit "brk #" |> setBase IntBase.dec |> emitNat imm.value)
    else if insn.opcode = kHlt then
      some (f |> emit "hlt #" |> setBase IntBase.dec |> emitNat imm.value)
    else if insn.opcode = kDcps1 then some (emit "dcps1" f)
    else if insn.opcode = kDcps2 then some (emit "dcps2" f)
    else if insn.opcode = kDcps3 then some (emit "dcps3" f)
    else none
  | _ => none

/-- Embeds PrintSystem from printer.cpp (the switch default, abort, is
modelled as none; out-of-range operand accesses likewise). -/
def PrintSystem (insn : Instruction) (f : Fmt) : Option Fmt :=
  if insn.opcode = kNop then some (emit "nop" f)
  else if insn.opcode = kYield then some (emit "yield" f)
  else if insn.opcode = kWfe then some (emit "wfe" f)
  else if insn.opcode = kWfi then some (emit "wfi" f)
  else if insn.opcode = kSev then some (emit "sev" f)
  else if insn.opcode = kSevl then some (emit "sevl" f)
  else if insn.opcode = kXpaclri then some (emit "xapclri" f)
  else if insn.opcode = kPacia1716 then some (emit "pacia1716" f)
  else if insn.opcode = kPacib1716 then some (emit "pacib1716" f)
  else if insn.opcode = kAutia1716 then some (emit "autia1716" f)
  else if insn.opcode = kAutib1716 then some (emit "autib1716" f)
  else if insn.opcode = kEsb then some (emit "esb" f)
  else if insn.opcode = kPsbCsync then some (emit "psb csync" f)
  else if insn.opcode = kPaciaz then some (emit "paciaz" f)
  else if insn.opcode = kPaciasp then some (emit "paciasp" f)
  else if insn.opcode = kPacibz then some (emit "pacibz" f)
  else if insn.opcode = kPacibsp then some (emit "pacibsp" f)
  else if insn.opcode = kAutiaz then some (emit "autiaz" f)
  else if insn.opcode = kAutiasp then some (emit "autiasp" f)
  else if insn.opcode = kAutibz then some (emit "autibz" f)
  else if insn.opcode = kAutibsp then some (emit "autibsp" f)
  else if insn.opcode = kHint then
    match insn.operands.get? 0 with
    | some op => some (f |> emit "hint " |> printOperand op)
    | none => none
  else if insn.opcode = kClrex then some (emit "clrex" f)
  else if insn.opcode = kDsb then
    match insn.operands.get? 0 with
    | some (Operand.immediate imm) => PrintBarrierType (imm.value % 256) (emit "dsb " f)
    | _ => none
  else if insn.opcode = kDmb then
    match insn.operands.get? 0 with
    | some (Operand.immediate imm) => PrintBarrierType (imm.value % 256) (emit "dmb " f)
    | _ => none
  else if insn.opcode = kIsb then
    match insn.operands.get? 0 with
    | some (Operand.immediate imm) =>
      let f := emit "isb" f
      some (if imm.value ≠ 0b1111 then
              f |> emit " #" |> setBase IntBase.dec |> emitNat imm.value
            else f)
    | _ => none
  else if insn.opcode = kSys then
    match insn.operands.get? 0, insn.operands.get? 1, insn.operands.get? 2,
          insn.operands.get? 3, insn.operands.get? 4 with
    | some (Operand.immediate op1), some (Operand.immediate crn),
      some (Operand.immediate crm), some (Operand.immediate op2),
      some (Operand.register rt) =>
      let f := f |> emit "sys " |> emit "#" |> setBase IntBase.dec |> emitNat op1.value
                 |> emit ", C" |> setBase IntBase.dec |> emitNat crn.value
                 |> emit ", C" |> setBase IntBase.dec |> emitNat crm.value
                 |> emit ", #" |> setBase IntBase.dec |> emitNat op2.value
      some (if rt.name ≠ kXzr then f |> emit ", " |> PrintRegister rt else f)
    | _, _, _, _, _ => none
  else if insn.opcode = kMsr then
    some (PrintOperands insn.operands (emit "msr " f))
  else if insn.opcode = kSysl then
    match insn.operands.get? 0, insn.operands.get? 1, insn.operands.get? 2,
          insn.operands.get? 3, insn.operands.get? 4 with
    | some (Operand.register rt), some (Operand.immediate op1),
      some (Operand.immediate crn), some (Operand.immediate crm),
      some (Operand.immediate op2) =>
      some (f |> emit "sysl " |> PrintRegister rt
              |> emit ", #" |> setBase IntBase.dec |> emitNat op1.value
              |> emit ", C" |> setBase IntBase.dec |> emitNat crn.value
              |> emit ", C" |> setBase IntBase.dec |> emitNat crm.value
              |> emit ", #" |> setBase IntBase.dec |> emitNat op2.value)
    | _, _, _, _, _ => none
  else if insn.opcode = kMrs then
    some (PrintOperands insn.operands (emit "mrs " f))
  else none

/-- Embeds PrintBranchRegister from printer.cpp.  Note the source prints
"brabz" with no trailing space before the register. -/
def PrintBranchRegister (insn : Instruction) (f : Fmt) : Option Fmt :=
  match insn.operands with
  | Operand.register rn :: _ =>
    if insn.opcode = kBr then some (f |> emit "br " |> PrintRegister rn)
    else if insn.opcode = kBraaz then some (f |> emit "braaz " |> PrintRegister rn)
    else if insn.opcode = kBrabz then some (f |> emit "brabz" |> PrintRegister rn)
    else if insn.opcode = kBlr then some (f |> emit "blr " |> PrintRegister rn)
    else if insn.opcode = kBlraaz then some (f |> emit "blraaz " |> PrintRegister rn)
    else if insn.opcode = kBlrabz then some (f |> emit "blrabz " |> PrintRegister rn)
    else if insn.opcode = kRet then
      let f := emit "ret" f
      some (if rn.name ≠ kX30 then f |> emit " " |> PrintRegister rn else f)
    else if insn.opcode = kRetaa then
      let f := emit "retaa" f
      some (if rn.name ≠ kX30 then f |> emit " " |> PrintRegister rn else f)
    else if insn.opcode = kRetab then
      let f := emit "retab" f
      some (if rn.name ≠ kX30 then f |> emit " " |> PrintRegister rn else f)
    else if insn.opcode = kEret then some (emit "eret" f)
    else if insn.opcode = kEretaa then some (emit "eretaa" f)
    else if insn.opcode = kEretab then some (emit "eretab" f)
    else if insn.opcode = kDrps then some (emit "drps" f)
    else if insn.opcode = kBraa then
      match insn.operands.get? 1 with
      | some op1 => some (f |> emit "braa " |> PrintRegister rn |> emit ", "
                            |> printOperand op1)
      | none => none
    else if insn.opcode = kBrab then
      match insn.operands.get? 1 with
      | some op1 => some (f |> emit "brab " |> PrintRegister rn |> emit ", "
                            |> printOperand op1)
      | none => none
    else if insn.opcode = kBlraa then
      match insn.operands.get? 1 with
      | some op1 => some (f |> emit "blraa " |> PrintRegister rn |> emit ", "
                            |> printOperand op1)
      | none => none
    else if insn.opcode = kBlrab then
      match insn.operands.get? 1 with
      | some op1 => some (f |> emit "blrab " |> PrintRegister rn |> emit ", "
                            |> printOperand op1)
      | none => none
    else none
  | _ => none

/-- Embeds PrintBranchImmediate from printer.cpp. -/
def PrintBranchImmediate (insn : Instruction) (f : Fmt) : Option Fmt :=
  match insn.operands with
  | [Operand.immediate offset] =>
    let f := if insn.opcode = kBl then emit "bl " f else emit "b " f
    some (PrintSignedImmediate offset f)
  | _ => none

/-- Embeds PrintCompareAndBranch from printer.cpp. -/
def PrintCompareAndBranch (insn : Instruction) (f : Fmt) : Option Fmt :=
  match insn.operands with
  | [op0, Operand.immediate offset] =>
    let f := if insn.opcode = kCbz then emit "cbz " f else emit "cbnz " f
    some (f |> printOperand op0 |> emit ", " |> PrintSignedImmediate offset)
  | _ => none

/-- Embeds PrintTestAndBranch from printer.cpp. -/
def PrintTestAndBranch (insn : Instruction) (f : Fmt) : Option Fmt :=
  match insn.operands with
  | [op0, Operand.immediate bit, Operand.immediate offset] =>
    let f := if insn.opcode = kTbz then emit "tbz " f else emit "tbnz " f
    some (f |> printOperand op0 |> emit ", #" |> setBase IntBase.dec
            |> emitNat bit.value |> emit ", " |> PrintSignedImmediate offset)
  | _ => none

/-- Embeds PrintLoadStoreExclusive from printer.cpp. -/
def PrintLoadStoreExclusive (insn : Instruction) (f : Fmt) : Option Fmt :=
  let step : Option (Fmt × Bool × Nat) :=
    if insn.opcode ≤ kLdxr then
      let mf : Fmt × Bool :=
        if insn.opcode = kLdxr then (emit "ldxr" f, false)
        else if insn.opcode = kLdxp then (emit "ldxp " f, true)
        else if insn.opcode = kLdaxr then (emit "ldaxr" f, false)
        else if insn.opcode = kLdaxp then (emit "ldaxp " f, true)
        else if insn.opcode = kLdlar then (emit "ldlar" f, false)
        else (emit "ldar" f, false)
      match insn.operands.get? 0 with
      | some (Operand.register r) => some (mf.1, mf.2, r.size)
      | _ => none
    else if insn.opcode ≤ kStxr then
      let mf : Fmt × Bool :=
        if insn.opcode = kStxr then (emit "stxr" f, false)
        else if insn.opcode = kStxp then (emit "stxp " f, true)
        else if insn.opcode = kStlxr then (emit "stlxr" f, false)
        else if insn.opcode = kStlxp then (emit "stlxp " f, true)
        else if insn.opcode = kStllr then (emit "stllr" f, false)
        else if insn.opcode = kStlr then (emit "stlr" f, false)
        else (f, false)
      if insn.opcode ≠ kStlr ∧ insn.opcode ≠ kStllr then
        match insn.operands.get? 1 with
        | some (Operand.register r) => some (mf.1, mf.2, r.size)
        | _ => none
      else
        match insn.operands.get? 0 with
        | some (Operand.register r) => some (mf.1, mf.2, r.size)
        | _ => none
    else some (f, false, 64)
  match step with
  | none => none
  | some (f, pair, size) =>
    let f :=
      if pair = false then
        if size = 8 then emit "b " f
        else if size = 16 then emit "h " f
        else emit " " f
      else f
    some (PrintOperands insn.operands f)

/-- Embeds PrintLoadLiteral from printer.cpp. -/
def PrintLoadLiteral (insn : Instruction) (f : Fmt) : Option Fmt :=
  match insn.operands with
  | [op0, Operand.immediateOffset imm_off] =>
    let mn : Option String :=
      if insn.opcode = kLdrLiteral then some "ldr "
      else if insn.opcode = kLdrsLiteral then some "ldrsw "
      else if insn.opcode = kPrfmLiteral then some "prfm "
      else none
    match mn with
    | none => none
    | some s =>
      let f := emit s f
      let f1 : Option Fmt :=
        if insn.opcode = kPrfmLiteral then
          match op0 with
          | Operand.immediate prfop => PrintPrefetchOp (prfop.value % 256) f
          | _ => none
        else
          some (f |> printOperand op0 |> emit ", ")
      match f1 with
      | none => none
      | some f => some (PrintSignedImmediate imm_off.offset f)
  | _ => none

/-- Embeds PrintLoadStorePair from printer.cpp. -/
def PrintLoadStorePair (insn : Instruction) (f : Fmt) : Option Fmt :=
  if insn.operands.length = 3 then
    let mn : Option String :=
      if insn.opcode = kLdp then some "ldp "
      else if insn.opcode = kLdpsw then some "ldpsw "
      else if insn.opcode = kLdnp then some "ldnp "
      else if insn.opcode = kStp then some "stp "
      else if insn.opcode = kStnp then some "stnp "
      else none
    match mn with
    | none => none
    | some s => some (PrintOperands insn.operands (emit s f))
  else none

/-- Embeds PrintLoadStore from printer.cpp. -/
def PrintLoadStore (insn : Instruction) (f : Fmt) : Option Fmt :=
  match insn.operands with
  | [op0, op1] =>
    let size? : Option Nat :=
      match op1 with
      | Operand.immediateOffset a => some a.size
      | Operand.registerOffset a => some a.size
      | _ => none
    match size? with
    | none => none
    | some size =>
      if insn.opcode = kPrfm then
        match op0 with
        | Operand.immediate prfop =>
          match PrintPrefetchOp (prfop.value % 256) (emit "prfm " f) with
          | some f => some (f |> emit ", " |> printOperand op1)
          | none => none
        | _ => none
      else
        let mn : Option String :=
          if insn.opcode = kLdr then some "ldr"
          else if insn.opcode = kLdur then some "ldur"
          else if insn.opcode = kLdtr then some "ldtr"
          else if insn.opcode = kLdrs then some "ldrs"
          else if insn.opcode = kLdurs then some "ldurs"
          else if insn.opcode = kLdtrs then some "ldtrs"
          else if insn.opcode = kStr then some "str"
          else if insn.opcode = kStur then some "stur"
          else if insn.opcode = kSttr then some "sttr"
          else none
        match mn with
        | none => none
        | some s =>
          let f := emit s f
          let f :=
            if size = 8 then emit "b " f
            else if size = 16 then emit "h " f
            else if size = 32 ∧ (insn.opcode = kLdrs ∨ insn.opcode = kLdurs ∨
                                 insn.opcode = kLdtrs) then emit "w " f
            else emit " " f
          some (PrintOperands insn.operands f)
  | _ => none

/-- Embeds PrintDataProcessingTwoSource from printer.cpp. -/
def PrintDataProcessingTwoSource (insn : Instruction) (f : Fmt) : Option Fmt :=
  if insn.operands.length = 3 then
    let mn : Option String :=
      if insn.opcode = kAsr then some "asr "
      else if insn.opcode = kLsl then some "lsl "
      else if insn.opcode = kLsr then some "lsr "
      else if insn.opcode = kRor then some "ror "
      else if insn.opcode = kSdiv then some "sdiv "
      else if insn.opcode = kUdiv then some "udiv "
      else if insn.opcode = kPacga then some "pacga "
      else if insn.opcode = kCrc32b then some "crc32b "
      else if insn.opcode = kCrc32h then some "crc32h "
      else if insn.opcode = kCrc32w then some "crc32w "
      else if insn.opcode = kCrc32x then some "crc32x "
      else if insn.opcode = kCrc32cb then some "crc32cb "
      else if insn.opcode = kCrc32ch then some "crc32ch "
      else if insn.opcode = kCrc32cw then some "crc32cw "
      else if insn.opcode = kCrc32cx then some "crc32cx "
      else none
    match mn with
    | none => none
    | some s => some (PrintOperands insn.operands (emit s f))
  else none

/-- Embeds PrintDataProcessingOneSource from printer.cpp.  The source's
kAutdb case prints "autda " (as written there). -/
def PrintDataProcessingOneSource (insn : Instruction) (f : Fmt) : Option Fmt :=
  match insn.operands with
  | [Operand.register rd, Operand.register rn] =>
    if insn.opcode = kRbit then
      some (f |> emit "rbit " |> PrintRegister rd |> emit ", " |> PrintRegister rn)
    else if insn.opcode = kRev16 then
      some (f |> emit "rev16 " |> PrintRegister rd |> emit ", " |> PrintRegister rn)
    else if insn.opcode = kRev32 then
      some (f |> emit "rev32 " |> PrintRegister rd |> emit ", " |> PrintRegister rn)
    else if insn.opcode = kRev then
      some (f |> emit "rev " |> PrintRegister rd |> emit ", " |> PrintRegister rn)
    else if insn.opcode = kClz then
      some (f |> emit "clz " |> PrintRegister rd |> emit ", " |> PrintRegister rn)
    else if insn.opcode = kCls then
      some (f |> emit "cls " |> PrintRegister rd |> emit ", " |> PrintRegister rn)
    else if insn.opcode = kPacia then
      some (if rn.name = kXzr then f |> emit "paciza " |> PrintRegister rd
            else f |> emit "pacia " |> PrintRegister rd |> emit ", "
                   |> PrintRegister rn)
    else if insn.opcode = kPacib then
      some (if rn.name = kXzr then f |> emit "pacizb " |> PrintRegister rd
            else f |> emit "pacib " |> PrintRegister rd |> emit ", "
                   |> PrintRegister rn)
    else if insn.opcode = kPacda then
      some (if rn.name = kXzr then f |> emit "pacdza " |> PrintRegister rd
            else f |> emit "pacda " |> PrintRegister rd |> emit ", "
                   |> PrintRegister rn)
    else if insn.opcode = kPacdb then
      some (if rn.name = kXzr then f |> emit "pacdzb " |> PrintRegister rd
            else f |> emit "pacdb " |> PrintRegister rd |> emit ", "
                   |> PrintRegister rn)
    else if insn.opcode = kAutia then
      some (if rn.name = kXzr then f |> emit "autiza " |> PrintRegister rd
            else f |> emit "autia " |> PrintRegister rd |> emit ", "
                   |> PrintRegister rn)
    else if insn.opcode = kAutib then
      some (if rn.name = kXzr then f |> emit "autizb " |> PrintRegister rd
            else f |> emit "autib " |> PrintRegister rd |> emit ", "
                   |> PrintRegister rn)
    else if insn.opcode = kAutda then
      some (if rn.name = kXzr then f |> emit "autdza " |> PrintRegister rd
            else f |> emit "autda " |> PrintRegister rd |> emit ", "
                   |> PrintRegister rn)
    else if insn.opcode = kAutdb then
      some (if rn.name = kXzr then f |> emit "autdzb " |> PrintRegister rd
            else f |> emit "autda " |> PrintRegister rd |> emit ", "
                   |> PrintRegister rn)
    else if insn.opcode = kXpaci then
      some (f |> emit "xpaci " |> PrintRegister rd)
    else if insn.opcode = kXpacd then
      some (f |> emit "xpacd " |> PrintRegister rd)
    else none
  | _ => none

/-- Embeds PrintLogicalShiftedRegister from printer.cpp. -/
def PrintLogicalShiftedRegister (insn : Instruction) (f : Fmt) : Option Fmt :=
  if insn.operands.length = 4 then
    let mn : Option String :=
      if insn.opcode = kAndShiftedRegister then
        some (if insn.set_flags then "ands " else "and ")
      else if insn.opcode = kBicShiftedRegister then
        some (if insn.set_flags then "bics " else "bic ")
      else if insn.opcode = kOrrShiftedRegister then some "orr "
      else if insn.opcode = kOrnShiftedRegister then some "orn "
      else if insn.opcode = kEorShiftedRegister then some "eor "
      else if insn.opcode = kEonShiftedRegister then some "eon "
      else none
    match mn with
    | none => none
    | some s => some (PrintOperands insn.operands (emit s f))
  else none

/-- Embeds PrintAddSubtractShiftedRegister from printer.cpp. -/
def PrintAddSubtractShiftedRegister (insn : Instruction) (f : Fmt) : Option Fmt :=
  match insn.operands with
  | [Operand.register rd, Operand.register rn, Operand.register rm,
     Operand.shift shift] =>
    if insn.opcode = kSubShiftedRegister then
      if insn.set_flags then
        if rd.name = kXzr then
          some (f |> emit "cmp " |> PrintRegister rn |> emit ", "
                  |> PrintRegister rm |> PrintShift shift)
        else if rn.name = kXzr then
          some (f |> emit "negs " |> PrintRegister rd |> emit ", "
                  |> PrintRegister rm |> PrintShift shift)
        else
          some (f |> emit "subs " |> PrintRegister rd |> emit ", "
                  |> PrintRegister rn |> emit ", " |> PrintRegister rm
                  |> PrintShift shift)
      else
        if rn.name = kXzr then
          some (f |> emit "neg " |> PrintRegister rd |> emit ", "
                  |> PrintRegister rm |> PrintShift shift)
        else
          some (f |> emit "sub " |> PrintRegister rd |> emit ", "
                  |> PrintRegister rn |> emit ", " |> PrintRegister rm
                  |> PrintShift shift)
    else
      if insn.set_flags then
        if rd.name = kXzr then
          some (f |> emit "cmn " |> PrintRegister rn |> emit ", "
                  |> PrintRegister rm |> PrintShift shift)
        else
          some (f |> emit "adds " |> PrintRegister rd |> emit ", "
                  |> PrintRegister rn |> emit ", " |> PrintRegister rm
                  |> PrintShift shift)
      else
        some (f |> emit "add " |> PrintRegister rd |> emit ", "
                |> PrintRegister rn |> emit ", " |> PrintRegister rm
                |> PrintShift shift)
  | _ => none

/-- Embeds PrintAddSubtractExtendedRegister from printer.cpp. -/
def PrintAddSubtractExtendedRegister (insn : Instruction) (f : Fmt) : Option Fmt :=
  match insn.operands with
  | [Operand.register rd, Operand.register rn, Operand.register rm,
     Operand.extend extend] =>
    if insn.opcode = kSubExtendedRegister then
      if insn.set_flags then
        if rd.name = kXzr then
          some (f |> emit "cmp " |> PrintRegister rn |> emit ", "
                  |> PrintRegister rm |> PrintExtend extend)
        else
          some (f |> emit "subs " |> PrintRegister rd |> emit ", "
                  |> PrintRegister rn |> emit ", " |> PrintRegister rm
                  |> PrintExtend extend)
      else
        some (f |> emit "sub " |> PrintRegister rd |> emit ", "
                |> PrintRegister rn |> emit ", " |> PrintRegister rm
                |> PrintExtend extend)
    else
      if insn.set_flags then
        if rd.name = kXzr then
          some (f |> emit "cmn " |> PrintRegister rn |> emit ", "
                  |> PrintRegister rm |> PrintExtend extend)
        else
          some (f |> emit "adds " |> PrintRegister rd |> emit ", "
                  |> PrintRegister rn |> emit ", " |> PrintRegister rm
                  |> PrintExtend extend)
      else
        some (f |> emit "add " |> PrintRegister rd |> emit ", "
                |> PrintRegister rn |> emit ", " |> PrintRegister rm
                |> PrintExtend extend)
  | _ => none

/-- Embeds PrintAddSubtractWithCarry from printer.cpp. -/
def PrintAddSubtractWithCarry (insn : Instruction) (f : Fmt) : Option Fmt :=
  match insn.operands with
  | [Operand.register rd, Operand.register rn, Operand.register rm] =>
    if insn.opcode = kSbc then
      if insn.set_flags then
        if rn.name = kXzr then
          some (f |> emit "ngcs " |> PrintRegister rd |> emit ", "
                  |> PrintRegister rm)
        else
          some (f |> emit "sbcs " |> PrintRegister rd |> emit ", "
                  |> PrintRegister rn |> emit ", " |> PrintRegister rm)
      else
        if rn.name = kXzr then
          some (f |> emit "ngc " |> PrintRegister rd |> emit ", "
                  |> PrintRegister rm)
        else
          some (f |> emit "sbc " |> PrintRegister rd |> emit ", "
                  |> PrintRegister rn |> emit ", " |> PrintRegister rm)
    else
      if insn.set_flags then
        some (f |> emit "adcs " |> PrintRegister rd |> emit ", "
                |> PrintRegister rn |> emit ", " |> PrintRegister rm)
      else
        some (f |> emit "adc " |> PrintRegister rd |> emit ", "
                |> PrintRegister rn |> emit ", " |> PrintRegister rm)
  | _ => none

/-- Embeds PrintConditionalCompare from printer.cpp. -/
def PrintConditionalCompare (insn : Instruction) (f : Fmt) : Option Fmt :=
  if insn.operands.length = 3 then
    let f := if insn.opcode = kCcmn then emit "ccmn " f else emit "ccmp " f
    some (f |> PrintOperands insn.operands |> emit ", "
            |> PrintConditionCode insn.cc)
  else none

/-- Embeds PrintConditionalSelect from printer.cpp. -/
def PrintConditionalSelect (insn : Instruction) (f : Fmt) : Option Fmt :=
  match insn.operands with
  | [Operand.register rd, Operand.register rn, Operand.register rm] =>
    let body : Option Fmt :=
      if insn.opcode = kCsel then
        some (f |> emit "csel " |> PrintRegister rd |> emit ", "
                |> PrintRegister rn |> emit ", " |> PrintRegister rm)
      else if insn.opcode = kCsinc then
        some (if rn.name = kXzr ∧ rm.name = kXzr then
                f |> emit "cset " |> PrintRegister rd
              else if rn.name = rm.name then
                f |> emit "cinc " |> PrintRegister rd |> emit ", "
                  |> PrintRegister rn
              else
                f |> emit "csinc " |> PrintRegister rd |> emit ", "
                  |> PrintRegister rn |> emit ", " |> PrintRegister rm)
      else if insn.opcode = kCsinv then
        some (if rn.name = kXzr ∧ rm.name = kXzr then
                f |> emit "csetm " |> PrintRegister rd
              else if rn.name = rm.name then
                f |> emit "cinv " |> PrintRegister rd |> emit ", "
                  |> PrintRegister rn
              else
                f |> emit "csinv " |> PrintRegister rd |> emit ", "
                  |> PrintRegister rn |> emit ", " |> PrintRegister rm)
      else if insn.opcode = kCsneg then
        some (if rn.name = rm.name then
                f |> emit "cneg " |> PrintRegister rd |> emit ", "
                  |> PrintRegister rn
              else
                f |> emit "csneg " |> PrintRegister rd |> emit ", "
                  |> PrintRegister rn |> emit ", " |> PrintRegister rm)
      else none
    match body with
    | none => none
    | some f => some (f |> emit ", " |> PrintConditionCode insn.cc)
  | _ => none

/-- Embeds PrintDataProcessingThreeSource from printer.cpp. -/
def PrintDataProcessingThreeSource (insn : Instruction) (f : Fmt) : Option Fmt :=
  match insn.operands with
  | [Operand.register rd, Operand.register rn, Operand.register rm,
     Operand.register ra] =>
    if insn.opcode = kMadd then
      some (if ra.name = kXzr then
              f |> emit "mul " |> PrintRegister rd |> emit ", "
                |> PrintRegister rn |> emit ", " |> PrintRegister rm
            else
              f |> emit "madd " |> PrintRegister rd |> emit ", "
                |> PrintRegister rn |> emit ", " |> PrintRegister rm
                |> emit ", " |> PrintRegister ra)
    else if insn.opcode = kMsub then
      some (if ra.name = kXzr then
              f |> emit "mneg " |> PrintRegister rd |> emit ", "
                |> PrintRegister rn |> emit ", " |> PrintRegister rm
            else
              f |> emit "msub " |> PrintRegister rd |> emit ", "
                |> PrintRegister rn |> emit ", " |> PrintRegister rm
                |> emit ", " |> PrintRegister ra)
    else if insn.opcode = kSmaddl then
      some (if ra.name = kXzr then
              f |> emit "smull " |> PrintRegister rd |> emit ", "
                |> PrintRegister rn |> emit ", " |> PrintRegister rm
            else
              f |> emit "smaddl " |> PrintRegister rd |> emit ", "
                |> PrintRegister rn |> emit ", " |> PrintRegister rm
                |> emit ", " |> PrintRegister ra)
    else if insn.opcode = kSmsubl then
      some (if ra.name = kXzr then
              f |> emit "smnegl " |> PrintRegister rd |> emit ", "
                |> PrintRegister rn |> emit ", " |> PrintRegister rm
            else
              f |> emit "smsubl " |> PrintRegister rd |> emit ", "
                |> PrintRegister rn |> emit ", " |> PrintRegister rm
                |> emit ", " |> PrintRegister ra)
    else if insn.opcode = kSmulh then
      some (f |> emit "smulh " |> PrintRegister rd |> emit ", "
              |> PrintRegister rn |> emit ", " |> PrintRegister rm)
    else if insn.opcode = kUmaddl then
      some (if ra.name = kXzr then
              f |> emit "umull " |> PrintRegister rd |> emit ", "
                |> PrintRegister rn |> emit ", " |> PrintRegister rm
            else
              f |> emit "umaddl " |> PrintRegister rd |> emit ", "
                |> PrintRegister rn |> emit ", " |> PrintRegister rm
                |> emit ", " |> PrintRegister ra)
    else if insn.opcode = kUmsubl then
      some (if ra.name = kXzr then
              f |> emit "umnegl " |> PrintRegister rd |> emit ", "
                |> PrintRegister rn |> emit ", " |> PrintRegister rm
            else
              f |> emit "umsubl " |> PrintRegister rd |> emit ", "
                |> PrintRegister rn |> emit ", " |> PrintRegister rm
                |> emit ", " |> PrintRegister ra)
    else if insn.opcode = kUmulh then
      some (f |> emit "umulh " |> PrintRegister rd |> emit ", "
              |> PrintRegister rn |> emit ", " |> PrintRegister rm)
    else none
  | _ => none

/-- Embeds operator<<(std::ostream&, Instruction) from printer.cpp: the
family dispatch chain of inclusive upper-bound comparisons, with the final
else printing the unsupported-instruction marker. -/
def printInstruction (insn : Instruction) (f : Fmt) : Option Fmt :=
  if insn.opcode ≤ kAdrp then PrintPcRelativeAddressing insn f
  else if insn.opcode ≤ kSubImmediate then PrintAddSubtractImmediate insn f
  else if insn.opcode ≤ kEorImmediate then PrintLogicalImmediate insn f
  else if insn.opcode ≤ kMovz then PrintMoveWideImmediate insn f
  else if insn.opcode ≤ kUbfm then PrintBitfield insn f
  else if insn.opcode ≤ kExtr then PrintExtract insn f
  else if insn.opcode ≤ kBCond then PrintConditionalBranch insn f
  else if insn.opcode ≤ kSvc then PrintExceptionGeneration insn f
  else if insn.opcode ≤ kYield then PrintSystem insn f
  else if insn.opcode ≤ kRetabz then PrintBranchRegister insn f
  else if insn.opcode ≤ kBl then PrintBranchImmediate insn f
  else if insn.opcode ≤ kCbz then PrintCompareAndBranch insn f
  else if insn.opcode ≤ kTbz then PrintTestAndBranch insn f
  else if insn.opcode ≤ kStxr then PrintLoadStoreExclusive insn f
  else if insn.opcode ≤ kPrfmLiteral then PrintLoadLiteral insn f
  else if insn.opcode ≤ kStp then PrintLoadStorePair insn f
  else if insn.opcode ≤ kStur then PrintLoadStore insn f
  else if insn.opcode ≤ kUdiv then PrintDataProcessingTwoSource insn f
  else if insn.opcode ≤ kXpaci then PrintDataProcessingOneSource insn f
  else if insn.opcode ≤ kEonShiftedRegister then PrintLogicalShiftedRegister insn f
  else if insn.opcode ≤ kSubShiftedRegister then
    PrintAddSubtractShiftedRegister insn f
  else if insn.opcode ≤ kSubExtendedRegister then
    PrintAddSubtractExtendedRegister insn f
  else if insn.opcode ≤ kSbc then PrintAddSubtractWithCarry insn f
  else if insn.opcode ≤ kCcmp then PrintConditionalCompare insn f
  else if insn.opcode ≤ kCsneg then PrintConditionalSelect insn f
  else if insn.opcode ≤ kUmsubl then PrintDataProcessingThreeSource insn f
  else some (emit "<unsupported_insn>" f)

/-- Text a register renders to on a fresh stream with the given sticky base
(the register number depends on the base). -/
def renderedReg (b : IntBase) (r : Register) : String :=
  (PrintRegister r ⟨"", b⟩).out

/-- Text an immediate renders to through PrintImmediate (base-independent:
the function always switches to hex itself). -/
def renderedImm (i : Immediate) : String := (PrintImmediate i fmt0).out

/-- Text an immediate renders to through PrintSignedImmediate
(base-independent). -/
def renderedSignedImm (i : Immediate) : String :=
  (PrintSignedImmediate i fmt0).out

/-- Text a shift suffix renders to (base-independent: the count is always
printed with an explicit hex manipulator). -/
def renderedShift (s : Shift) : String := (PrintShift s fmt0).out

theorem emit_out (s : String) (f : Fmt) : (emit s f).out = f.out ++ s := rfl

theorem emit_base (s : String) (f : Fmt) : (emit s f).base = f.base := rfl

theorem PrintRegister_out (r : Register) (f : Fmt) :
    (PrintRegister r f).out = f.out ++ renderedReg f.base r := by
  unfold renderedReg PrintRegister
  split_ifs <;>
    simp [emit, emitNat, setBase, String.append_assoc, String.empty_append,
      String.append_empty]

theorem PrintRegister_base (r : Register) (f : Fmt) :
    (PrintRegister r f).base = f.base := by
  unfold PrintRegister
  split_ifs <;> rfl

theorem PrintImmediate_out (i : Immediate) (f : Fmt) :
    (PrintImmediate i f).out = f.out ++ renderedImm i := by
  simp [renderedImm, PrintImmediate, emit, emitNat, setBase, fmt0,
    String.append_assoc, String.empty_append]

theorem PrintImmediate_base (i : Immediate) (f : Fmt) :
    (PrintImmediate i f).base = IntBase.hex := rfl

theorem PrintSignedImmediate_out (i : Immediate) (f : Fmt) :
    (PrintSignedImmediate i f).out = f.out ++ renderedSignedImm i := by
  unfold renderedSignedImm PrintSignedImmediate
  split_ifs <;>
    simp [emit, emitNat, setBase, fmt0, String.append_assoc, String.empty_append]

theorem PrintSignedImmediate_base (i : Immediate) (f : Fmt) :
    (PrintSignedImmediate i f).base = IntBase.hex := by
  unfold PrintSignedImmediate
  split_ifs <;> rfl

theorem PrintShift_out (s : Shift) (f : Fmt) :
    (PrintShift s f).out = f.out ++ renderedShift s := by
  obtain ⟨ty, c⟩ := s
  cases ty <;>
    simp [renderedShift, PrintShift, emit, emitNat, setBase, fmt0,
      String.append_assoc, String.empty_append, String.append_empty]

/-- C1: for every Add/Sub-immediate instruction (opcode kAddImmediate or
kSubImmediate) whose immediate operand value is 0, whose set_flags is false,
and whose destination register rd or source register rn is SP, the printer
emits the alias "mov rd, rn" instead of the canonical add/sub mnemonic. -/
theorem C1_mov_alias (insn : Instruction) (rd rn : Register) (imm : Immediate)
    (sh : Shift)
    (hops : insn.operands = [Operand.register rd, Operand.register rn,
      Operand.immediate imm, Operand.shift sh])
    (hopc : insn.opcode = kAddImmediate ∨ insn.opcode = kSubImmediate)
    (h0 : imm.value = 0) (hfl : insn.set_flags = false)
    (hsp : rd.name = kSp ∨ rn.name = kSp) :
    (PrintAddSubtractImmediate insn fmt0).map Fmt.out =
      some ("mov " ++ renderedReg IntBase.dec rd ++ ", " ++
        renderedReg IntBase.dec rn) := by
  obtain ⟨opc, ops, cc, sf⟩ := insn
  simp only at hops hfl
  subst hops
  subst hfl
  simp only [PrintAddSubtractImmediate]
  have hcond : (imm.value = 0 ∧ True ∧ rd.name = kSp) ∨
      (imm.value = 0 ∧ rn.name = kSp) := by
    rcases hsp with h | h
    · exact Or.inl ⟨h0, trivial, h⟩
    · exact Or.inr ⟨h0, h⟩
  rw [if_pos hcond]
  simp [emit, PrintRegister_out, PrintRegister_base, fmt0,
    String.append_assoc, String.empty_append]

/-- Witness for C1 at add sp, x1, #0. -/
theorem C1_mov_alias_witness :
    (PrintAddSubtractImmediate
      ⟨kAddImmediate,
       [Operand.register ⟨kSp, 64⟩, Operand.register ⟨1, 64⟩,
        Operand.immediate ⟨0, 64⟩, Operand.shift ⟨ShiftType.kNone, 0⟩],
       0, false⟩ fmt0).map Fmt.out = some "mov sp, x1" :=
  (C1_mov_alias
    ⟨kAddImmediate,
     [Operand.register ⟨kSp, 64⟩, Operand.register ⟨1, 64⟩,
      Operand.immediate ⟨0, 64⟩, Operand.shift ⟨ShiftType.kNone, 0⟩],
     0, false⟩
    ⟨kSp, 64⟩ ⟨1, 64⟩ ⟨0, 64⟩ ⟨ShiftType.kNone, 0⟩ rfl (Or.inl rfl) rfl rfl
    (Or.inl rfl)).trans (by decide)

/-- C2 counterexample: sub xzr, x1, #1 with set_flags false (and not
matching the mov alias) prints "cmp x1, #0x1", not the canonical
"sub xzr, x1, #0x1" the claim requires for the flagless rd = XZR case. -/
theorem C2_counterexample :
    (PrintAddSubtractImmediate
      ⟨kSubImmediate,
       [Operand.register ⟨kXzr, 64⟩, Operand.register ⟨1, 64⟩,
        Operand.immediate ⟨1, 64⟩, Operand.shift ⟨ShiftType.kNone, 0⟩],
       0, false⟩ fmt0).map Fmt.out = some "cmp x1, #0x1" ∧
    ("cmp x1, #0x1" : String) ≠ "sub xzr, x1, #0x1" := by
  exact ⟨by decide, by decide⟩

/-- C2 (amended): for every Add/Sub-immediate instruction whose destination
rd is XZR and which does not match the mov alias, the printer emits
"cmp rn, imm" when the opcode is kSubImmediate and "cmn rn, imm" otherwise,
regardless of set_flags; the canonical mnemonic is reserved for rd not equal
to XZR. -/
theorem C2_cmp_cmn (insn : Instruction) (rd rn : Register) (imm : Immediate)
    (sh : Shift)
    (hops : insn.operands = [Operand.register rd, Operand.register rn,
      Operand.immediate imm, Operand.shift sh])
    (hopc : insn.opcode = kAddImmediate ∨ insn.opcode = kSubImmediate)
    (hxzr : rd.name = kXzr)
    (hmov : ¬((imm.value = 0 ∧ insn.set_flags = false ∧ rd.name = kSp) ∨
              (imm.value = 0 ∧ rn.name = kSp))) :
    (PrintAddSubtractImmediate insn fmt0).map Fmt.out =
      some ((if insn.opcode = kSubImmediate then "cmp " else "cmn ") ++
        renderedReg IntBase.dec rn ++ ", " ++ renderedImm imm ++
        renderedShift sh) := by
  obtain ⟨opc, ops, cc, sf⟩ := insn
  simp only at hops hmov ⊢
  subst hops
  simp only [PrintAddSubtractImmediate]
  have hmov' : ¬((imm.value = 0 ∧ sf = false ∧ rd.name = kSp) ∨
      (imm.value = 0 ∧ rn.name = kSp)) := hmov
  rw [if_neg (by simpa using hmov'), if_pos hxzr]
  by_cases hsub : opc = kSubImmediate <;>
    simp [hsub, emit, PrintRegister_out, PrintRegister_base,
      PrintImmediate_out, PrintShift_out, fmt0, String.append_assoc,
      String.empty_append]

/-- Witness for C2 at subs xzr, x1, #1 (the flag-setting cmp case). -/
theorem C2_cmp_cmn_witness :
    (PrintAddSubtractImmediate
      ⟨kSubImmediate,
       [Operand.register ⟨kXzr, 64⟩, Operand.register ⟨1, 64⟩,
        Operand.immediate ⟨1, 64⟩, Operand.shift ⟨ShiftType.kNone, 0⟩],
       0, true⟩ fmt0).map Fmt.out = some "cmp x1, #0x1" :=
  (C2_cmp_cmn
    ⟨kSubImmediate,
     [Operand.register ⟨kXzr, 64⟩, Operand.register ⟨1, 64⟩,
      Operand.immediate ⟨1, 64⟩, Operand.shift ⟨ShiftType.kNone, 0⟩],
     0, true⟩
    ⟨kXzr, 64⟩ ⟨1, 64⟩ ⟨1, 64⟩ ⟨ShiftType.kNone, 0⟩ rfl (Or.inr rfl) rfl
    (by decide)).trans (by decide)

/-- C3 counterexample: an Extend of type Lsl with count 0 prints nothing at
all, not the bare "lsl" mnemonic the claim describes. -/
theorem C3_counterexample :
    (PrintExtend ⟨ExtendType.kLsl, 0⟩ fmt0).out = "" ∧
    ("" : String) ≠ "lsl" ∧ ("" : String) ≠ ", lsl" := by
  exact ⟨rfl, by decide, by decide⟩

/-- C3 (amended): an Extend of type Lsl with count 0 prints nothing (the
suffix is suppressed entirely, like type None); with a nonzero count it
prints the lsl mnemonic followed by an explicit decimal #count; type None
prints nothing. -/
theorem C3_lsl_extend (e : Extend) :
    (e.type = ExtendType.kLsl ∧ e.count = 0 → (PrintExtend e fmt0).out = "") ∧
    (e.type = ExtendType.kLsl ∧ e.count ≠ 0 →
      (PrintExtend e fmt0).out = ", lsl, #" ++ natStr IntBase.dec e.count) ∧
    (e.type = ExtendType.kNone → (PrintExtend e fmt0).out = "") := by
  obtain ⟨ty, c⟩ := e
  refine ⟨?_, ?_, ?_⟩
  · rintro ⟨hty, hc⟩
    simp only at hty hc
    subst hty
    subst hc
    rfl
  · rintro ⟨hty, hc⟩
    simp only at hty hc
    subst hty
    simp [PrintExtend, hc, emit, emitNat, setBase, fmt0, natStr,
      String.append_assoc, String.empty_append]
  · intro hty
    simp only at hty
    subst hty
    rfl

/-- Witness for C3 at an Lsl extend with count 3. -/
theorem C3_lsl_extend_witness :
    (PrintExtend ⟨ExtendType.kLsl, 3⟩ fmt0).out = ", lsl, #3" :=
  ((C3_lsl_extend ⟨ExtendType.kLsl, 3⟩).2.1 ⟨rfl, by decide⟩).trans (by decide)

/-- C4: evaluation of the code at the failing input.  The 64-bit UBFM with
immr = 32 and imms = 31 satisfies imms + 1 = immr, so per the claim (and the
architecture's lsl alias) it should print "lsl x0, x1, #32"; the code's
extra size-independent guard imms not in {31, 63} sends it to the lsr branch
instead. -/
theorem C4_code_eval :
    (PrintBitfield
      ⟨kUbfm,
       [Operand.register ⟨0, 64⟩, Operand.register ⟨1, 64⟩,
        Operand.immediate ⟨32, 64⟩, Operand.immediate ⟨31, 64⟩],
       0, false⟩ fmt0).map Fmt.out = some "lsr x0, x1, #32" ∧
    (some "lsr x0, x1, #32" : Option String) ≠ some "lsl x0, x1, #32" := by
  exact ⟨by decide, by decide⟩

/-- C5: for every ImmediateOffset operand, when post_index and writeback are
both set the closing bracket is emitted immediately after the base register
and the offset (if any) after the bracket; otherwise the offset stays inside
the brackets and an exclamation mark follows the closing bracket exactly
when writeback is set (which, there, means writeback without post_index). -/
theorem C5_addressing (opnd : ImmediateOffset) :
    (PrintImmediateOffset opnd fmt0).out =
      (if opnd.writeback = true ∧ opnd.post_index = true then
        "[" ++ renderedReg IntBase.dec opnd.base ++ "]" ++
          (if opnd.offset.value ≠ 0 then
            ", " ++ renderedSignedImm opnd.offset ++ renderedShift opnd.shift
          else "")
      else
        "[" ++ renderedReg IntBase.dec opnd.base ++
          (if opnd.offset.value ≠ 0 then
            ", " ++ renderedSignedImm opnd.offset ++ renderedShift opnd.shift
          else "") ++ "]" ++
          (if opnd.writeback = true then "!" else "")) := by
  obtain ⟨b, off, sh, wb, pi, sz⟩ := opnd
  cases wb <;> cases pi <;> by_cases h0 : off.value = 0 <;>
    simp [PrintImmediateOffset, h0, emit, PrintRegister_out, PrintRegister_base,
      PrintSignedImmediate_out, PrintSignedImmediate_base, PrintShift_out, fmt0,
      String.append_assoc, String.empty_append, String.append_empty,
      show ∀ s : String, "], " ++ s = "]" ++ (", " ++ s) from fun _ => rfl]

/-- C6: evaluation of the code at the failing input.  PrintSignedImmediate
on Immediate with value 0xFFFFFFF0 and size 32 takes the negative branch
(bit 31 is set) but computes the magnitude as the full 64-bit two's
complement, printing "#-0xffffffff00000010" where the spec requires
"#-0x10". -/
theorem C6_code_eval :
    (PrintSignedImmediate ⟨0xFFFFFFF0, 32⟩ fmt0).out =
      "#-0xffffffff00000010" ∧
    ("#-0xffffffff00000010" : String) ≠ "#-0x10" := by
  exact ⟨rfl, by decide⟩

/-- C7: condition-code encodings 14 and 15 both render as the identical
text "al". -/
theorem C7_condition_codes :
    (PrintConditionCode 14 fmt0).out = "al" ∧
    (PrintConditionCode 15 fmt0).out = "al" := by
  exact ⟨rfl, rfl⟩

/-- C8: an opcode beyond every known family makes the instruction printer
emit the literal marker in the output and return normally; a register name
beyond the known enumeration prints the register marker; an operand variant
outside the handled cases prints the operand marker. -/
theorem C8_unsupported_markers :
    (∀ (insn : Instruction) (f : Fmt), kUmsubl < insn.opcode →
      printInstruction insn f = some (emit "<unsupported_insn>" f)) ∧
    (∀ (r : Register) (f : Fmt), kPc < r.name →
      PrintRegister r f = emit "<unsupported_reg>" f) ∧
    (∀ (n : Nat) (f : Fmt),
      printOperand (Operand.unknown n) f = emit "<unsupported_opnd>" f) := by
  refine ⟨?_, ?_, ?_⟩
  · intro insn f h
    simp only [kUmsubl] at h
    unfold printInstruction
    rw [if_neg (by simp only [kAdrp]; omega)]
    rw [if_neg (by simp only [kSubImmediate]; omega)]
    rw [if_neg (by simp only [kEorImmediate]; omega)]
    rw [if_neg (by simp only [kMovz]; omega)]
    rw [if_neg (by simp only [kUbfm]; omega)]
    rw [if_neg (by simp only [kExtr]; omega)]
    rw [if_neg (by simp only [kBCond]; omega)]
    rw [if_neg (by simp only [kSvc]; omega)]
    rw [if_neg (by simp only [kYield]; omega)]
    rw [if_neg (by simp only [kRetabz]; omega)]
    rw [if_neg (by simp only [kBl]; omega)]
    rw [if_neg (by simp only [kCbz]; omega)]
    rw [if_neg (by simp only [kTbz]; omega)]
    rw [if_neg (by simp only [kStxr]; omega)]
    rw [if_neg (by simp only [kPrfmLiteral]; omega)]
    rw [if_neg (by simp only [kStp]; omega)]
    rw [if_neg (by simp only [kStur]; omega)]
    rw [if_neg (by simp only [kUdiv]; omega)]
    rw [if_neg (by simp only [kXpaci]; omega)]
    rw [if_neg (by simp only [kEonShiftedRegister]; omega)]
    rw [if_neg (by simp only [kSubShiftedRegister]; omega)]
    rw [if_neg (by simp only [kSubExtendedRegister]; omega)]
    rw [if_neg (by simp only [kSbc]; omega)]
    rw [if_neg (by simp only [kCcmp]; omega)]
    rw [if_neg (by simp only [kCsneg]; omega)]
    rw [if_neg (by simp only [kUmsubl]; omega)]
  · intro r f h
    simp only [kPc] at h
    unfold PrintRegister
    rw [if_neg (by simp only [kX0, kXzr]; omega)]
    rw [if_neg (by simp only [kSp]; omega)]
    rw [if_neg (by simp only [kPc]; omega)]
  · intro n f
    rfl

/-- Witness for C8: a fresh stream, opcode 200, register name 40 and an
operand with variant index 9 all produce the respective markers. -/
theorem C8_unsupported_markers_witness :
    printInstruction ⟨200, [], 0, false⟩ fmt0 =
      some (emit "<unsupported_insn>" fmt0) ∧
    PrintRegister ⟨40, 64⟩ fmt0 = emit "<unsupported_reg>" fmt0 ∧
    printOperand (Operand.unknown 9) fmt0 = emit "<unsupported_opnd>" fmt0 :=
  ⟨C8_unsupported_markers.1 ⟨200, [], 0, false⟩ fmt0 (by decide),
   C8_unsupported_markers.2.1 ⟨40, 64⟩ fmt0 (by decide),
   C8_unsupported_markers.2.2 9 fmt0⟩

set_option maxRecDepth 8000

/-- C9 counterexample: at the full-system option 0b1111 (bit 1 equal to
bit 0) the fallback branch is taken, but the uint8_t option is inserted into
the stream as a raw character (code 15), not as the decimal digits "15". -/
theorem C9_counterexample :
    PrintBarrierType 15 fmt0 =
      some ⟨"#" ++ String.mk [Char.ofNat 15], IntBase.dec⟩ ∧
    "#" ++ String.mk [Char.ofNat 15] ≠ "#15" := by
  exact ⟨rfl, by decide⟩

/-- C9 (amended): for every 8-bit barrier option, PrintBarrierType never
emits the symbolic name "sy": whenever bit 1 equals bit 0 (which includes
option 0b1111) the fallback branch prints "#" followed by the option byte
inserted as a raw character, and otherwise the output is one of the eight
domain/access combinations, so the branch that would print "sy" is
unreachable. -/
theorem C9_barrier_no_sy :
    ∀ bopt : Nat, bopt < 256 →
      ((bopt &&& 0b10) >>> 1 = bopt &&& 0b01 →
        PrintBarrierType bopt fmt0 =
          some ⟨"#" ++ String.mk [Char.ofNat bopt], IntBase.dec⟩) ∧
      ((bopt &&& 0b10) >>> 1 ≠ bopt &&& 0b01 →
        (PrintBarrierType bopt fmt0).map Fmt.out ∈
          [some "osld", some "osst", some "nshld", some "nshst",
           some "ishld", some "ishst", some "ld", some "st"]) ∧
      (PrintBarrierType bopt fmt0).map Fmt.out ≠ some "sy" := by decide

/-- Witness for C9 at option 0b1111. -/
theorem C9_barrier_no_sy_witness :
    PrintBarrierType 15 fmt0 =
      some ⟨"#" ++ String.mk [Char.ofNat 15], IntBase.dec⟩ ∧
    (PrintBarrierType 13 fmt0).map Fmt.out ∈
      [some "osld", some "osst", some "nshld", some "nshst",
       some "ishld", some "ishst", some "ld", some "st"] :=
  ⟨(C9_barrier_no_sy 15 (by decide)).1 (by decide),
   (C9_barrier_no_sy 13 (by decide)).2.1 (by decide)⟩

/-- C10: for kRet, kRetaa and kRetab the register operand is suppressed
exactly when its name is X30; otherwise it is appended after the mnemonic. -/
theorem C10_ret_register (insn : Instruction) (rn : Register)
    (rest : List Operand)
    (hops : insn.operands = Operand.register rn :: rest) :
    (insn.opcode = kRet → (PrintBranchRegister insn fmt0).map Fmt.out =
      some (if rn.name = kX30 then "ret"
            else "ret " ++ renderedReg IntBase.dec rn)) ∧
    (insn.opcode = kRetaa → (PrintBranchRegister insn fmt0).map Fmt.out =
      some (if rn.name = kX30 then "retaa"
            else "retaa " ++ renderedReg IntBase.dec rn)) ∧
    (insn.opcode = kRetab → (PrintBranchRegister insn fmt0).map Fmt.out =
      some (if rn.name = kX30 then "retab"
            else "retab " ++ renderedReg IntBase.dec rn)) := by
  obtain ⟨opc, ops, cc, sf⟩ := insn
  simp only at hops ⊢
  subst hops
  refine ⟨?_, ?_, ?_⟩ <;> intro hopc <;> subst hopc <;>
    by_cases h30 : rn.name = kX30 <;>
      simp [PrintBranchRegister, h30, kBr, kBraaz, kBrabz, kBlr, kBlraaz,
        kBlrabz, kRet, kRetaa, kRetab, emit, PrintRegister_out,
        PrintRegister_base, fmt0, String.append_assoc, String.empty_append,
        show ∀ s : String, "ret " ++ s = "ret" ++ (" " ++ s) from fun _ => rfl,
        show ∀ s : String, "retaa " ++ s = "retaa" ++ (" " ++ s) from
          fun _ => rfl,
        show ∀ s : String, "retab " ++ s = "retab" ++ (" " ++ s) from
          fun _ => rfl]

/-- Witness for C10: ret with x30 prints bare "ret"; ret with x5 appends the
register. -/
theorem C10_ret_register_witness :
    (PrintBranchRegister ⟨kRet, [Operand.register ⟨kX30, 64⟩], 0, false⟩
      fmt0).map Fmt.out = some "ret" ∧
    (PrintBranchRegister ⟨kRet, [Operand.register ⟨5, 64⟩], 0, false⟩
      fmt0).map Fmt.out = some "ret x5" :=
  ⟨((C10_ret_register ⟨kRet, [Operand.register ⟨kX30, 64⟩], 0, false⟩
      ⟨kX30, 64⟩ [] rfl).1 rfl).trans (by decide),
   ((C10_ret_register ⟨kRet, [Operand.register ⟨5, 64⟩], 0, false⟩
      ⟨5, 64⟩ [] rfl).1 rfl).trans (by decide)⟩
